import Mathlib

/-!
Verification of the stream lifecycle orchestrator of the vas-ms backend:
the stream state machine (`app/services/stream_state_machine.py`), the
ingestion service (`app/services/stream_ingestion_service.py`), the
producer service (`app/services/producer_service.py`), the consumer
session service (`app/services/consumer_service.py`) and the route-level
start orchestration (`app/routes/devices.py`), shallowly embedded as
executable Lean functions over explicit database / registry state.
-/

namespace VasMs

/-- `StreamState` from `app/models/stream.py` (enum `StreamState`). -/
inductive StreamState where
  | initializing
  | ready
  | live
  | error
  | stopped
  | closed
deriving DecidableEq, Repr, Fintype

/-- Error kinds raised by the embedded services.  The Python code raises
`ValueError` for not-found / bad-config / invalid-transition conditions and
`RuntimeError` for wrapped operational failures; we keep them apart by kind. -/
inductive Err where
  | notFound
  | invalidConfig
  | invalidStateTransition
  | runtimeError
  | dbError
deriving DecidableEq, Repr

/-- A JSON-like scalar metadata value. -/
inductive MetaVal where
  | str (s : String)
  | num (n : Int)
deriving DecidableEq, Repr

/-- Opaque metadata maps (`metadata` / `extra_metadata` columns). -/
abbrev Metadata : Type := List (String × MetaVal)

/-- Set a key in a metadata map, replacing an existing binding (dict-style
`md[key] = v`; keys are unique, insertion order preserved). -/
def Metadata.set : Metadata → String → MetaVal → Metadata
  | [], k, v => [(k, v)]
  | p :: rest, k, v =>
    if p.1 == k then (k, v) :: rest else p :: Metadata.set rest k v

/-- Read a key from a metadata map (dict-style `md.get(key)`). -/
def Metadata.get (md : Metadata) (k : String) : Option MetaVal :=
  (md.find? (fun p => p.1 == k)).map (·.2)

/-- One row of `stream_state_transitions`
(`app/models/stream_state_transition.py`): `from_state` is nullable, null
only for the first record of a stream. -/
structure TransitionRecord where
  stream_id : Nat
  from_state : Option StreamState
  to_state : StreamState
  reason : Option String
  transition_metadata : Metadata
deriving DecidableEq, Repr

/-- `StreamStateMachine.VALID_TRANSITIONS`
(`app/services/stream_state_machine.py`, lines 26-34): the adjacency table,
keyed by the current state (`none` is the virtual initial state). -/
def validTransitions : Option StreamState → List StreamState
  | none => [.initializing]
  | some .initializing => [.ready, .error]
  | some .ready => [.live, .error]
  | some .live => [.error, .stopped]
  | some .error => [.live, .stopped, .closed]
  | some .stopped => [.live, .closed]
  | some .closed => []

/-- `StreamStateMachine.is_valid_transition`: membership of the target state
in `VALID_TRANSITIONS.get(from_state, [])`. -/
def isValidTransition (fs : Option StreamState) (ts : StreamState) : Bool :=
  (validTransitions fs).contains ts

/-- The state a `transition` call acts on: the stream's current `state`
attribute plus the audit records added to the session so far. -/
structure StreamAudit where
  state : Option StreamState
  audit : List TransitionRecord
deriving DecidableEq, Repr

/-- `StreamStateMachine.transition`
(`app/services/stream_state_machine.py`, lines 36-89).  Validates the
transition; on failure raises (returns the error) before any mutation; on
success sets `stream.state` and, when a database session is supplied
(`withDb`), appends a `StreamStateTransition` audit record. -/
def machineTransition (st : StreamAudit) (sid : Nat) (ts : StreamState)
    (reason : Option String) (md : Metadata) (withDb : Bool) :
    StreamAudit × Option Err :=
  let fs := st.state
  if isValidTransition fs ts then
    let st1 : StreamAudit := { st with state := some ts }
    let st2 : StreamAudit :=
      if withDb then
        { st1 with audit := st1.audit ++
            [{ stream_id := sid, from_state := fs, to_state := ts,
               reason := reason, transition_metadata := md }] }
      else st1
    (st2, none)
  else
    (st, some .invalidStateTransition)

/-- The adjacency table exactly as the specification sentence lists it
(none→INITIALIZING; INITIALIZING→{READY, ERROR}; READY→{LIVE, ERROR};
LIVE→{ERROR, STOPPED}; ERROR→{LIVE, STOPPED, CLOSED};
STOPPED→{LIVE, CLOSED}; CLOSED→{}), written as a decidable pair predicate
to compare against the implementation's table. -/
def specAdjacency (fs : Option StreamState) (ts : StreamState) : Bool :=
  (fs = none ∧ ts = .initializing) ∨
  (fs = some .initializing ∧ (ts = .ready ∨ ts = .error)) ∨
  (fs = some .ready ∧ (ts = .live ∨ ts = .error)) ∨
  (fs = some .live ∧ (ts = .error ∨ ts = .stopped)) ∨
  (fs = some .error ∧ (ts = .live ∨ ts = .stopped ∨ ts = .closed)) ∨
  (fs = some .stopped ∧ (ts = .live ∨ ts = .closed))

/-- One requested transition: target state, reason, metadata
(the arguments of a `transition` call; the session is always supplied). -/
structure TransitionOp where
  ts : StreamState
  reason : Option String
  md : Metadata
deriving DecidableEq, Repr

/-- Run a sequence of `transition` calls, each with a database session;
`none` when any call in the sequence fails. -/
def runTransitionSeq (sid : Nat) (st : StreamAudit) :
    List TransitionOp → Option StreamAudit
  | [] => some st
  | op :: rest =>
    match machineTransition st sid op.ts op.reason op.md true with
    | (st', none) => runTransitionSeq sid st' rest
    | (_, some _) => none

/-- Replaying the ordered `to_state` values of the audit records from the
virtual `none` state: the result is the final `to_state`, or `none` for an
empty log. -/
def replayAudit (recs : List TransitionRecord) : Option StreamState :=
  recs.foldl (fun _ r => some r.to_state) none

/-- `ConsumerState` used by `app/services/consumer_service.py`
(CONNECTING, CONNECTED, PAUSED, CLOSED; CLOSED terminal). -/
inductive ConsumerState where
  | connecting
  | connected
  | paused
  | closed
deriving DecidableEq, Repr, Fintype

/-- A `consumers` row as read and written by
`app/services/consumer_service.py` (`id`, `stream_id`, `client_id`,
`state`, `last_seen_at`, `closed_at`, `extra_metadata`).  The model class
itself is not under src; the fields are the ones the service uses, matching
the Consumer entity of the specification (§3).  Times are integer seconds. -/
structure ConsumerRow where
  id : Nat
  stream_id : Nat
  client_id : String
  state : ConsumerState
  last_seen_at : Option Int
  closed_at : Option Int
  extra_metadata : Metadata
deriving DecidableEq, Repr

/-- Result of `ConsumerService.record_heartbeat`: the acknowledgment dict
(`consumer_id`, `last_seen_at`, `status`). -/
structure HeartbeatAck where
  consumer_id : Nat
  last_seen_at : Int
  status : String
deriving DecidableEq, Repr

/-- `ConsumerService.record_heartbeat`
(`app/services/consumer_service.py`, lines 80-118): looks the consumer up
by id, raises `NotFound` when absent, otherwise sets `last_seen_at` to the
current time and returns status `"active"`.  It never reads or writes the
consumer's `state`. -/
def recordHeartbeat (consumers : List ConsumerRow) (cid : Nat) (now : Int) :
    List ConsumerRow × Except Err HeartbeatAck :=
  match consumers.find? (fun c => c.id == cid) with
  | none => (consumers, .error .notFound)
  | some _ =>
    (consumers.map (fun c =>
        if c.id == cid then { c with last_seen_at := some now } else c),
     .ok { consumer_id := cid, last_seen_at := now, status := "active" })

/-- The heartbeat timeout of `ConsumerService` (`heartbeat_timeout_seconds
= 60`). -/
def heartbeatTimeoutSeconds : Int := 60

/-- The per-row effect of `ConsumerService.cleanup_stale_consumers`
(`app/services/consumer_service.py`, lines 120-186): a consumer in
CONNECTED or CONNECTING state whose `last_seen_at` is strictly older than
`now - 60` is marked CLOSED with `closed_at := now`,
`cleanup_reason := "heartbeat_timeout"` and the elapsed staleness in
minutes recorded as `minutes_stale`; every other row is untouched. -/
def sweepConsumerRow (now : Int) (c : ConsumerRow) : ConsumerRow :=
  let stale :=
    (c.state == .connected || c.state == .connecting) &&
    (match c.last_seen_at with
     | some ls => decide (ls < now - heartbeatTimeoutSeconds)
     | none => false)
  if stale then
    let minutesStale : Int :=
      ((now - c.last_seen_at.getD 0).toNat / 60 : Nat)
    { c with
      state := .closed,
      closed_at := some now,
      extra_metadata :=
        (c.extra_metadata.set "cleanup_reason" (.str "heartbeat_timeout")).set
          "minutes_stale" (.num minutesStale) }
  else c

/-- `ConsumerService.cleanup_stale_consumers`: one sweep pass over all
consumer rows with the default 60-second timeout. -/
def cleanupStaleConsumers (consumers : List ConsumerRow) (now : Int) :
    List ConsumerRow :=
  consumers.map (sweepConsumerRow now)

/-- `ProducerState` from `app/models/producer.py`. -/
inductive ProducerState where
  | creating
  | active
  | paused
  | closed
deriving DecidableEq, Repr, Fintype

/-- A `producers` row (`app/models/producer.py`); the opaque
`rtp_parameters` blob and the timestamps are omitted as no claim touches
them. -/
structure ProducerRow where
  id : Nat
  stream_id : Nat
  mediasoup_producer_id : String
  mediasoup_transport_id : String
  mediasoup_router_id : String
  ssrc : Nat
  state : ProducerState
deriving DecidableEq, Repr

/-- A `streams` row (`app/models/stream.py`); `codec_config` is modelled by
its two keys the services use (`ssrc`, `rtp_port`); `state` is `Option` so
the virtual pre-creation `none` state of the machine is expressible (the
database column itself is declared NOT NULL with default INITIALIZING). -/
structure StreamRow where
  id : Nat
  camera_id : Nat
  name : String
  state : Option StreamState
  codec_ssrc : Option Nat
  codec_rtp_port : Option Nat
deriving DecidableEq, Repr

/-- A `devices` row (`app/models/device.py`), restricted to the fields the
ingestion path reads. -/
structure DeviceRow where
  id : Nat
  name : String
  rtsp_url : Option String
  is_active : Bool
deriving DecidableEq, Repr

/-- The persistent store, as the tables the orchestrator core touches. -/
structure DB where
  streams : List StreamRow
  devices : List DeviceRow
  producers : List ProducerRow
  audit : List TransitionRecord
deriving DecidableEq, Repr

def DB.findStream (db : DB) (sid : Nat) : Option StreamRow :=
  db.streams.find? (fun s => s.id == sid)

def DB.findDevice (db : DB) (did : Nat) : Option DeviceRow :=
  db.devices.find? (fun d => d.id == did)

/-- A `transition(stream, to_state, reason, metadata, db)` call made by a
service on a loaded stream row: on success the row's `state` is updated and
the audit record appended to the session; on failure nothing changes. -/
def svcTransition (db : DB) (s : StreamRow) (ts : StreamState)
    (reason : Option String) (md : Metadata) : DB × Option Err :=
  match machineTransition ⟨s.state, db.audit⟩ s.id ts reason md true with
  | (st', none) =>
    ({ db with
        streams := db.streams.map (fun t =>
          if t.id == s.id then { t with state := st'.state } else t),
        audit := st'.audit }, none)
  | (_, some e) => (db, some e)

/-- The MediaSoup responses `ProducerService.create_producer` receives from
the fabric: `none` models a response without an id (the code raises
`RuntimeError`).  `rowId` is the generated primary key of the new row. -/
structure FabricResp where
  routerId : Option String
  transportId : Option String
  producerId : Option String
  rowId : Nat
deriving DecidableEq, Repr

/-- The dict returned by `ProducerService.create_producer` on success. -/
structure ProducerResult where
  producer_row_id : Nat
  mediasoup_producer_id : String
  router_id : String
  transport_id : String
  ssrc : Nat
  state : ProducerState
  stream_state : StreamState
deriving DecidableEq, Repr

/-- The `except` branch of `ProducerService.create_producer`
(lines 191-204): transition the stream to ERROR with the captured reason,
commit, and re-raise as `RuntimeError`. -/
def createProducerFailure (db : DB) (stream : StreamRow) (msg : String) :
    DB × Except Err ProducerResult :=
  match svcTransition db stream .error
      (some ("Producer creation failed: " ++ msg)) [("error", .str msg)] with
  | (db2, none) => (db2, .error .runtimeError)
  | (db2, some e) => (db2, .error e)

/-- `ProducerService.create_producer`
(`app/services/producer_service.py`, lines 40-204): requires the stream in
READY state, reads ssrc/rtp_port from `codec_config`, creates
router → transport → producer on the fabric, persists a new Producer row
with `state = ACTIVE`, and transitions the stream READY → LIVE in the same
unit of work.  No existing producer row is read, closed or modified. -/
def createProducer (db : DB) (sid : Nat) (fab : FabricResp) :
    DB × Except Err ProducerResult :=
  match db.findStream sid with
  | none => (db, .error .notFound)
  | some stream =>
    if stream.state != some .ready then
      (db, .error .invalidStateTransition)
    else
      match stream.codec_ssrc, stream.codec_rtp_port with
      | none, _ => (db, .error .invalidConfig)
      | _, none => (db, .error .invalidConfig)
      | some ssrc, some rtpPort =>
        if ssrc == 0 || rtpPort == 0 then (db, .error .invalidConfig)
        else
          match fab.routerId with
          | none => createProducerFailure db stream
              "Failed to create MediaSoup router"
          | some routerId =>
            match fab.transportId with
            | none => createProducerFailure db stream
                "Failed to create RTP transport"
            | some transportId =>
              match fab.producerId with
              | none => createProducerFailure db stream
                  "Failed to create MediaSoup producer"
              | some producerId =>
                let newRow : ProducerRow :=
                  { id := fab.rowId, stream_id := sid,
                    mediasoup_producer_id := producerId,
                    mediasoup_transport_id := transportId,
                    mediasoup_router_id := routerId,
                    ssrc := ssrc, state := .active }
                let db1 := { db with producers := db.producers ++ [newRow] }
                match svcTransition db1 stream .live
                    (some "MediaSoup producer created and active")
                    [("producer_id", .str producerId),
                     ("router_id", .str routerId),
                     ("transport_id", .str transportId)] with
                | (db2, none) =>
                  (db2, .ok
                    { producer_row_id := fab.rowId,
                      mediasoup_producer_id := producerId,
                      router_id := routerId,
                      transport_id := transportId,
                      ssrc := ssrc,
                      state := .active,
                      stream_state := .live })
                | (db2, some _) => createProducerFailure db2 stream
                    "Invalid state transition"

deriving instance DecidableEq for Except

/-- Number of producer rows of the stream with `state = ACTIVE`. -/
def activeProducerCount (db : DB) (sid : Nat) : Nat :=
  (db.producers.filter
    (fun p => p.stream_id == sid && p.state == ProducerState.active)).length

/-- Observable side effects of the ingestion / route orchestration on the
external actors (probe process, forwarding process, fabric). -/
inductive Event where
  | probe (url : String)
  | spawn (pid : Option Nat) (ssrc : Nat)
  | killOrphan (pid : Nat)
  | createTransport (id : String) (port : Nat)
  | fabricCreateProducer (id : String) (ssrc : Nat)
  | fabricCloseProducer (id : String)
  | stopPipeline (sid : String)
deriving DecidableEq, Repr

/-- An entry of `StreamIngestionService.active_processes`
(`stream_ingestion_service.py`, lines 132-139): pid, ssrc, rtp port,
camera id and rtsp url of the running forwarding process
(`started_at` is omitted). -/
structure ProcInfo where
  pid : Option Nat
  ssrc : Nat
  rtp_port : Nat
  camera_id : Nat
  rtsp_url : String
deriving DecidableEq, Repr

/-- Dict-style assignment into the active-process registry. -/
def regSet : List (Nat × ProcInfo) → Nat → ProcInfo → List (Nat × ProcInfo)
  | [], k, v => [(k, v)]
  | p :: rest, k, v =>
    if p.1 == k then (k, v) :: rest else p :: regSet rest k v

/-- The state `StreamIngestionService` operates on: the database session
and the in-memory `active_processes` registry. -/
structure IngestState where
  db : DB
  reg : List (Nat × ProcInfo)
deriving DecidableEq, Repr

/-- Outcomes of the external interactions of one `start_ingestion` call:
the SSRC probe result (`none` = no SSRC detected), whether
`rtsp_pipeline.start_stream` raises, the pid it reports (the code never
checks it), and the outcome of each named `db.commit()` site. -/
structure IngestOracle where
  ssrcResp : Option Nat
  ffmpegRaises : Bool
  ffmpegPid : Option Nat
  commitInit : Bool
  commitReady : Bool
  commitError : Bool
deriving DecidableEq, Repr

/-- The dict returned by `StreamIngestionService.start_ingestion`. -/
structure IngestResult where
  stream_id : Nat
  ssrc : Nat
  rtp_port : Nat
  pid : Option Nat
  state : StreamState
deriving DecidableEq, Repr

/-- Update one stream row of the session in place. -/
def DB.updateStream (db : DB) (sid : Nat) (f : StreamRow → StreamRow) : DB :=
  { db with streams := db.streams.map (fun t => if t.id == sid then f t else t) }

/-- The `except` branch of `StreamIngestionService.start_ingestion`
(lines 172-189): transition the stream to ERROR with the captured reason
and error metadata, commit, delete the registry entry, and re-raise as
`RuntimeError`.  No spawned process is killed and nothing fabric-side is
closed here. -/
def ingestionFailure (st : IngestState) (stream : StreamRow) (sid : Nat)
    (commitOk : Bool) (msg : String) (evs : List Event) :
    IngestState × List Event × Except Err IngestResult :=
  match svcTransition st.db stream .error
      (some ("Ingestion failed: " ++ msg)) [("error", .str msg)] with
  | (_, some e) => (st, evs, .error e)
  | (dbe, none) =>
    if !commitOk then
      ({ st with db := dbe }, evs, .error .dbError)
    else
      ({ db := dbe, reg := st.reg.filter (fun p => p.1 != sid) }, evs,
        .error .runtimeError)

/-- `StreamIngestionService.start_ingestion`
(`stream_ingestion_service.py`, lines 46-189): load stream and camera,
transition to INITIALIZING and commit, then (guarded) capture the SSRC,
start the FFmpeg pipeline, record the process in the registry, transition
to READY, store the codec config and commit; any guarded failure runs
`ingestionFailure`.  No producer or transport is created in this call. -/
def startIngestion (st : IngestState) (sid : Nat) (o : IngestOracle) :
    IngestState × List Event × Except Err IngestResult :=
  match st.db.findStream sid with
  | none => (st, [], .error .notFound)
  | some stream =>
    match st.db.findDevice stream.camera_id with
    | none => (st, [], .error .notFound)
    | some device =>
      match device.rtsp_url with
      | none => (st, [], .error .invalidConfig)
      | some url =>
        if url == "" then (st, [], .error .invalidConfig)
        else
          match svcTransition st.db stream .initializing
              (some "Starting stream ingestion")
              [("camera_name", .str device.name), ("rtsp_url", .str url)] with
          | (_, some e) => (st, [], .error e)
          | (db1, none) =>
            if !o.commitInit then ({ st with db := db1 }, [], .error .dbError)
            else
              match o.ssrcResp with
              | none =>
                ingestionFailure { st with db := db1 }
                  { stream with state := some .initializing } sid
                  o.commitError "Failed to capture SSRC from RTSP stream"
                  [.probe url]
              | some ssrc =>
                if ssrc == 0 then
                  ingestionFailure { st with db := db1 }
                    { stream with state := some .initializing } sid
                    o.commitError "Failed to capture SSRC from RTSP stream"
                    [.probe url]
                else if o.ffmpegRaises then
                  ingestionFailure { st with db := db1 }
                    { stream with state := some .initializing } sid
                    o.commitError "FFmpeg failed to start" [.probe url]
                else
                  match svcTransition db1
                      { stream with state := some .initializing } .ready
                      (some "FFmpeg started, SSRC captured")
                      [("ssrc", .num ssrc)] with
                  | (_, some _) =>
                    ingestionFailure { st with db := db1 }
                      { stream with state := some .initializing } sid
                      o.commitError "Invalid state transition"
                      [.probe url, .spawn o.ffmpegPid ssrc]
                  | (db2, none) =>
                    let rtpPort := 10000 + ssrc % 50000
                    let db3 := db2.updateStream sid (fun t =>
                      { t with codec_ssrc := some ssrc,
                               codec_rtp_port := some rtpPort })
                    let reg1 := regSet st.reg sid
                      { pid := o.ffmpegPid, ssrc := ssrc, rtp_port := rtpPort,
                        camera_id := stream.camera_id, rtsp_url := url }
                    if !o.commitReady then
                      ingestionFailure { db := db3, reg := reg1 }
                        { stream with
                          state := some .ready,
                          codec_ssrc := some ssrc,
                          codec_rtp_port := some rtpPort } sid
                        o.commitError "Database commit failed"
                        [.probe url, .spawn o.ffmpegPid ssrc]
                    else
                      ({ db := db3, reg := reg1 },
                        [.probe url, .spawn o.ffmpegPid ssrc],
                        .ok { stream_id := sid, ssrc := ssrc,
                              rtp_port := rtpPort, pid := o.ffmpegPid,
                              state := .ready })

/-- The dict returned by `StreamIngestionService.stop_ingestion`. -/
structure StopResult where
  stream_id : Nat
  state : StreamState
deriving DecidableEq, Repr

/-- `StreamIngestionService.stop_ingestion`
(`stream_ingestion_service.py`, lines 191-254): load the stream, stop the
FFmpeg pipeline (`rtsp_pipeline.stop_stream`, tolerant of an unknown
stream), transition to STOPPED, commit, and remove the registry entry; a
`ValueError` from the transition is caught and re-raised as `RuntimeError`,
in which case the registry entry is NOT removed. -/
def stopIngestion (st : IngestState) (sid : Nat) :
    IngestState × List Event × Except Err StopResult :=
  match st.db.findStream sid with
  | none => (st, [], .error .notFound)
  | some stream =>
    match svcTransition st.db stream .stopped
        (some "Stream ingestion stopped") [] with
    | (_, some _) =>
      (st, [.stopPipeline (toString sid)], .error .runtimeError)
    | (dbs, none) =>
      ({ db := dbs, reg := st.reg.filter (fun p => p.1 != sid) },
        [.stopPipeline (toString sid)],
        .ok { stream_id := sid, state := .stopped })

/-- The stream row's state as stored in the session. -/
def dbStreamState (db : DB) (sid : Nat) : Option (Option StreamState) :=
  (db.findStream sid).map (fun s => s.state)

/-- Modelled from the spec: one entry of `rtsp_pipeline.active_streams`.
The module `app/services/rtsp_pipeline.py` is not under src; per §4.2 step
7 of the specification the registry records the process handle, the
synchronization source and the allocated port (plus a start time, omitted
here).  In particular it records no transport id. -/
structure RegEntry where
  pid : Nat
  ssrc : Nat
  port : Nat
deriving DecidableEq, Repr

/-- The state the route-level start orchestration
(`app/routes/devices.py`, `start_device_stream`) operates on: the database,
the pipeline's active-stream registry (spec-modelled) and the fabric's
per-room producer lists. -/
structure RouteWorld where
  db : DB
  pipeline : List (String × RegEntry)
  fabric : List (String × List String)
deriving DecidableEq, Repr

/-- Outcomes of the external interactions of one `start_device_stream`
call: whether the guard's `get_producers` raises, the orphan pids `pgrep`
reports, the transport creation response, the SSRC probe result, whether
the cleanup's `get_producers` raises, whether producer creation fails, the
new fabric producer id, and the FFmpeg start outcome. -/
structure RouteOracle where
  guardQueryFails : Bool
  orphanPids : List Nat
  transportResp : Option (String × Nat)
  ssrcResp : Option Nat
  cleanupScanFails : Bool
  producerCreateFails : Bool
  newProducerId : String
  ffmpegOk : Bool
  ffmpegPid : Nat
deriving DecidableEq, Repr

/-- The descriptor `start_device_stream` returns: the transport id, the
(video) producer id, and the reconnect flag. -/
structure RouteStartResult where
  transport_id : String
  producer_id : String
  reconnect : Bool
deriving DecidableEq, Repr

/-- The fabric's producer list for a room (`get_producers(room_id)`). -/
def fabricProducersOf (w : RouteWorld) (room : String) : List String :=
  ((w.fabric.find? (fun p => p.1 == room)).map (fun p => p.2)).getD []

/-- Dict-style assignment into the fabric's room → producers map. -/
def fabricSetProducers :
    List (String × List String) → String → List String →
    List (String × List String)
  | [], k, v => [(k, v)]
  | p :: rest, k, v =>
    if p.1 == k then (k, v) :: rest else p :: fabricSetProducers rest k v

/-- Dict-style assignment into the pipeline's active-stream registry
(modelled from the spec: `start_stream` records handle, ssrc and port). -/
def pipeSet :
    List (String × RegEntry) → String → RegEntry → List (String × RegEntry)
  | [], k, v => [(k, v)]
  | p :: rest, k, v =>
    if p.1 == k then (k, v) :: rest else p :: pipeSet rest k v

/-- Update one device row of the session in place. -/
def DB.updateDevice (db : DB) (did : Nat) (f : DeviceRow → DeviceRow) : DB :=
  { db with devices := db.devices.map (fun d => if d.id == did then f d else d) }

/-- The full-restart tail of `start_device_stream`
(`app/routes/devices.py`, lines 140-297), entered when no healthy active
stream exists: kill orphaned FFmpeg processes matching the source URI,
create a PlainRTP transport, capture the SSRC with a bounded probe, close
any old producers of the room, create the producer with the captured SSRC,
and only then start FFmpeg (recording the process in the pipeline registry)
and mark the device active.  Every failure surfaces as an HTTP 500
(`runtimeError`). -/
def routeFullStart (w : RouteWorld) (device : DeviceRow) (did : Nat)
    (o : RouteOracle) (evs0 : List Event) :
    RouteWorld × List Event × Except Err RouteStartResult :=
  let room := toString did
  let url := device.rtsp_url.getD ""
  let evs1 := evs0 ++ o.orphanPids.map Event.killOrphan
  match o.transportResp with
  | none => (w, evs1, .error .runtimeError)
  | some tp =>
    let evs2 := evs1 ++ [.createTransport tp.1 tp.2]
    match o.ssrcResp with
    | none => (w, evs2 ++ [.probe url], .error .runtimeError)
    | some ssrc =>
      if ssrc == 0 then (w, evs2 ++ [.probe url], .error .runtimeError)
      else
        let evs3 := evs2 ++ [.probe url]
        let old := if o.cleanupScanFails then [] else fabricProducersOf w room
        let w2 :=
          if o.cleanupScanFails then w
          else { w with fabric := fabricSetProducers w.fabric room [] }
        let evs4 := evs3 ++ old.map Event.fabricCloseProducer
        if o.producerCreateFails then (w2, evs4, .error .runtimeError)
        else
          let w3 := { w2 with
            fabric := fabricSetProducers w2.fabric room
              (fabricProducersOf w2 room ++ [o.newProducerId]) }
          let evs5 := evs4 ++ [.fabricCreateProducer o.newProducerId ssrc]
          if o.ffmpegOk then
            ({ w3 with
                pipeline := pipeSet w3.pipeline room
                  { pid := o.ffmpegPid, ssrc := ssrc, port := tp.2 },
                db := w3.db.updateDevice did
                  (fun d => { d with is_active := true }) },
              evs5 ++ [.spawn (some o.ffmpegPid) ssrc],
              .ok { transport_id := tp.1, producer_id := o.newProducerId,
                    reconnect := false })
          else
            (w3, evs5, .error .runtimeError)

/-- `start_device_stream` (`app/routes/devices.py`, lines 82-287): load the
device; if the stream is already tracked in the pipeline registry, query
the fabric for its producers — on success with a nonempty list return the
existing descriptor (reconnect response: the producer is the last existing
one, the transport id is read from the registry entry, which records none,
so it is reported as `"unknown"`); if the fabric query raises, stop the
stream and fall through; otherwise run the full restart. -/
def startDeviceStream (w : RouteWorld) (did : Nat) (o : RouteOracle) :
    RouteWorld × List Event × Except Err RouteStartResult :=
  match w.db.findDevice did with
  | none => (w, [], .error .notFound)
  | some device =>
    let room := toString did
    if (w.pipeline.find? (fun p => p.1 == room)).isSome then
      if o.guardQueryFails then
        routeFullStart
          { w with pipeline := w.pipeline.filter (fun p => p.1 != room) }
          device did o [.stopPipeline room]
      else
        match (fabricProducersOf w room).getLast? with
        | some lastProducer =>
          (w, [], .ok { transport_id := "unknown",
                        producer_id := lastProducer, reconnect := true })
        | none => routeFullStart w device did o []
    else
      routeFullStart w device did o []

/-- Fixture: a route world with one camera device and nothing running. -/
def routeWorld0 : RouteWorld :=
  { db := { streams := [], devices := [⟨3, "cam1", some "rtsp://cam1", false⟩],
            producers := [], audit := [] },
    pipeline := [], fabric := [] }

/-- Fixture: a route start call in which every external interaction
succeeds. -/
def routeOracle0 : RouteOracle :=
  { guardQueryFails := false, orphanPids := [],
    transportResp := some ("T1", 5004), ssrcResp := some 7,
    cleanupScanFails := false, producerCreateFails := false,
    newProducerId := "P1", ffmpegOk := true, ffmpegPid := 42 }

/-- Fixture: the first and second start calls for device 3. -/
def routeRun1 : RouteWorld × List Event × Except Err RouteStartResult :=
  startDeviceStream routeWorld0 3 routeOracle0

def routeRun2 : RouteWorld × List Event × Except Err RouteStartResult :=
  startDeviceStream routeRun1.1 3 routeOracle0

/-- Fixture: a database with one stream (id 1, camera 2) in the given
state and one camera device with a configured source URI. -/
def scenDb (st : Option StreamState) : DB :=
  { streams := [⟨1, 2, "S1", st, none, none⟩],
    devices := [⟨2, "cam1", some "rtsp://cam1", true⟩],
    producers := [], audit := [] }

/-- Fixture: an ingestion run in which every external interaction succeeds
(SSRC 7 detected, FFmpeg starts with pid 42, all commits succeed). -/
def scenOracle : IngestOracle :=
  { ssrcResp := some 7, ffmpegRaises := false, ffmpegPid := some 42,
    commitInit := true, commitReady := true, commitError := true }

/-- Fixture: the registry entry of the stream of `scenDb` while its
forwarding process runs. -/
def scenProc : ProcInfo :=
  { pid := some 42, ssrc := 7, rtp_port := 10007, camera_id := 2,
    rtsp_url := "rtsp://cam1" }

/-- Fixture: the ingestion scenario steps — a start from the virtual
initial state, producer creation, stop, and a second start. -/
def scenStart1 : IngestState × List Event × Except Err IngestResult :=
  startIngestion ⟨scenDb none, []⟩ 1 scenOracle

def scenAfterProducer : DB × Except Err ProducerResult :=
  createProducer scenStart1.1.db 1 ⟨some "R1", some "T1", some "P1", 5⟩

def scenAfterStop : IngestState × List Event × Except Err StopResult :=
  stopIngestion ⟨scenAfterProducer.1, scenStart1.1.reg⟩ 1

def scenRestart : IngestState × List Event × Except Err IngestResult :=
  startIngestion scenAfterStop.1 1 scenOracle

/-- Fixture: the successful scenario run, except that the commit after the
READY transition fails (the persistent store is one of the three
independently-failing actors). -/
def scenOracleCommitFail : IngestOracle :=
  { scenOracle with commitReady := false }

/-- Events that destroy or release a resource (process kill, pipeline stop,
fabric producer close). -/
def Event.isDestructive : Event → Bool
  | .killOrphan _ => true
  | .stopPipeline _ => true
  | .fabricCloseProducer _ => true
  | _ => false

theorem isValidTransition_eq_specAdjacency :
    ∀ (fs : Option StreamState) (ts : StreamState),
      isValidTransition fs ts = specAdjacency fs ts := by
  decide

/-- C1: the transition operation succeeds exactly when the pair
(current state, target state) is in the adjacency table listed by the
specification; for every pair not in the table it raises
`InvalidStateTransition` and leaves both the stream's state and the audit
log unchanged. -/
theorem transition_ok_iff_spec_adjacency
    (st : StreamAudit) (sid : Nat) (ts : StreamState)
    (reason : Option String) (md : Metadata) (withDb : Bool) :
    ((machineTransition st sid ts reason md withDb).2 = none ↔
      specAdjacency st.state ts = true) ∧
    ((machineTransition st sid ts reason md withDb).2 ≠ none →
      (machineTransition st sid ts reason md withDb).2 =
          some .invalidStateTransition ∧
        machineTransition st sid ts reason md withDb = (st, some .invalidStateTransition)) := by
  rw [← isValidTransition_eq_specAdjacency]
  by_cases h : isValidTransition st.state ts = true
  · simp [machineTransition, h]
  · simp [machineTransition, h]

/-- Witness for C1 at a concrete input: from `READY`, a transition to
`STOPPED` is not in the table, is refused, and changes nothing. -/
theorem transition_ok_iff_spec_adjacency_witness :
    machineTransition ⟨some .ready, []⟩ 1 .stopped none [] true =
      (⟨some .ready, []⟩, some .invalidStateTransition) := by
  have h := (transition_ok_iff_spec_adjacency ⟨some .ready, []⟩ 1 .stopped none [] true).2
  exact (h (by decide)).2

theorem replayAudit_append (recs : List TransitionRecord) (r : TransitionRecord) :
    replayAudit (recs ++ [r]) = some r.to_state := by
  unfold replayAudit
  rw [List.foldl_append]
  rfl

theorem runTransitionSeq_preserves_replay (sid : Nat) :
    ∀ (ops : List TransitionOp) (st st' : StreamAudit),
      replayAudit st.audit = st.state →
      runTransitionSeq sid st ops = some st' →
      replayAudit st'.audit = st'.state := by
  intro ops
  induction ops with
  | nil =>
    intro st st' hinv hrun
    simp [runTransitionSeq] at hrun
    rw [← hrun]
    exact hinv
  | cons op rest ih =>
    intro st st' hinv hrun
    unfold runTransitionSeq at hrun
    unfold machineTransition at hrun
    by_cases h : isValidTransition st.state op.ts = true
    · simp [h] at hrun
      exact ih _ _ (by simp [replayAudit_append]) hrun
    · simp [h] at hrun

/-- C2: for every stream, after any sequence of successful `transition`
calls (each supplied a database session) starting from the virtual `none`
state with an empty audit log, replaying the ordered `to_state` values of
the appended `StreamStateTransition` records yields exactly the stream's
current state. -/
theorem replay_audit_reconstructs_state (sid : Nat) (ops : List TransitionOp)
    (st' : StreamAudit)
    (h : runTransitionSeq sid ⟨none, []⟩ ops = some st') :
    replayAudit st'.audit = st'.state :=
  runTransitionSeq_preserves_replay sid ops ⟨none, []⟩ st' (by rfl) h

/-- Witness for C2: the sequence INITIALIZING, READY, LIVE succeeds from the
virtual initial state and its audit log replays to `LIVE`. -/
theorem replay_audit_reconstructs_state_witness :
    runTransitionSeq 1 ⟨none, []⟩
        [⟨.initializing, some "create", []⟩, ⟨.ready, none, []⟩,
         ⟨.live, some "producer active", []⟩] =
      some ⟨some .live,
        [⟨1, none, .initializing, some "create", []⟩,
         ⟨1, some .initializing, .ready, none, []⟩,
         ⟨1, some .ready, .live, some "producer active", []⟩]⟩ ∧
      replayAudit
        [⟨1, none, .initializing, some "create", []⟩,
         ⟨1, some .initializing, .ready, none, []⟩,
         ⟨1, some .ready, .live, some "producer active", []⟩] =
        some .live := by
  refine ⟨by decide, ?_⟩
  exact replay_audit_reconstructs_state 1
    [⟨.initializing, some "create", []⟩, ⟨.ready, none, []⟩,
     ⟨.live, some "producer active", []⟩]
    ⟨some .live,
      [⟨1, none, .initializing, some "create", []⟩,
       ⟨1, some .initializing, .ready, none, []⟩,
       ⟨1, some .ready, .live, some "producer active", []⟩]⟩
    (by decide)

theorem Metadata.get_set_self (md : Metadata) (k : String) (v : MetaVal) :
    (md.set k v).get k = some v := by
  induction md with
  | nil => simp [Metadata.set, Metadata.get, List.find?]
  | cons p rest ih =>
    by_cases h : p.1 == k
    · simp [Metadata.set, Metadata.get, h, List.find?]
    · simp only [Metadata.set, h, if_neg, Bool.false_eq_true, ite_false]
      simpa [Metadata.get, List.find?, h] using ih

theorem Metadata.get_set_ne (md : Metadata) (k k' : String) (v : MetaVal)
    (h : k ≠ k') :
    (md.set k' v).get k = md.get k := by
  have hk : (k' == k) = false := beq_eq_false_iff_ne.mpr (Ne.symm h)
  induction md with
  | nil => simp [Metadata.set, Metadata.get, List.find?, hk]
  | cons p rest ih =>
    by_cases hp : p.1 == k'
    · have hpk : (p.1 == k) = false := by
        have : p.1 = k' := by simpa using hp
        simp [this, h.symm]
      have hkk' : (k == k) = true := by simp
      simp [Metadata.set, Metadata.get, hp, hpk, List.find?,
        show (k' == k) = false by simp [Ne.symm h]]
    · simp only [Metadata.set, hp, Bool.false_eq_true, ite_false]
      by_cases hk : p.1 == k
      · simp [Metadata.get, List.find?, hk]
      · simpa [Metadata.get, List.find?, hk, hp] using ih

/-- C8: one sweep pass with the default 60-second timeout closes exactly the
CONNECTING/CONNECTED consumers whose heartbeat is strictly older than the
threshold — a consumer last seen more than 60 seconds ago is transitioned
to CLOSED with `cleanup_reason = "heartbeat_timeout"` and its elapsed
staleness (in whole minutes) recorded in metadata, while a consumer last
seen less than 60 seconds ago is left exactly unchanged. -/
theorem cleanup_stale_consumers_correct
    (consumers : List ConsumerRow) (now : Int) (i : Nat) (c : ConsumerRow)
    (hc : consumers.get? i = some c) :
    ((c.state = .connected ∨ c.state = .connecting) →
      ∀ ls, c.last_seen_at = some ls → now - ls > 60 →
        (cleanupStaleConsumers consumers now).get? i =
          some { c with
            state := .closed,
            closed_at := some now,
            extra_metadata :=
              (c.extra_metadata.set "cleanup_reason"
                  (.str "heartbeat_timeout")).set "minutes_stale"
                (.num ((now - ls).toNat / 60 : Nat)) } ∧
          ((cleanupStaleConsumers consumers now).get? i).any
            (fun c' => c'.state == .closed &&
              c'.extra_metadata.get "cleanup_reason" ==
                some (.str "heartbeat_timeout")) = true) ∧
    (∀ ls, c.last_seen_at = some ls → now - ls < 60 →
      (cleanupStaleConsumers consumers now).get? i = some c) := by
  have hmap : (cleanupStaleConsumers consumers now).get? i =
      (consumers.get? i).map (sweepConsumerRow now) := by
    simp [cleanupStaleConsumers]
  constructor
  · intro hstate ls hls hold
    have hstale : (c.state == ConsumerState.connected ||
        c.state == ConsumerState.connecting) = true := by
      rcases hstate with h | h <;> simp [h]
    have hlt : ls < now - heartbeatTimeoutSeconds := by
      unfold heartbeatTimeoutSeconds
      omega
    have hrow : sweepConsumerRow now c =
        { c with
          state := .closed,
          closed_at := some now,
          extra_metadata :=
            (c.extra_metadata.set "cleanup_reason"
                (.str "heartbeat_timeout")).set "minutes_stale"
              (.num ((now - ls).toNat / 60 : Nat)) } := by
      simp [sweepConsumerRow, hstale, hls, hlt]
    refine ⟨by rw [hmap, hc]; simp [hrow], ?_⟩
    rw [hmap, hc]
    simp only [Option.map_some', hrow, Option.any_some]
    rw [Metadata.get_set_ne _ _ _ _ (by decide), Metadata.get_set_self]
    simp
  · intro ls hls hrecent
    have hlt : ¬ ls < now - heartbeatTimeoutSeconds := by
      unfold heartbeatTimeoutSeconds
      omega
    rw [hmap, hc]
    rcases h : (c.state == ConsumerState.connected ||
        c.state == ConsumerState.connecting) with _ | _
    · simp [sweepConsumerRow, h]
    · simp [sweepConsumerRow, h, hls, hlt]

/-- Witness for C8: with `now = 1000`, a CONNECTED consumer last seen 61
seconds ago is closed with reason `heartbeat_timeout`, and one last seen 59
seconds ago is untouched. -/
theorem cleanup_stale_consumers_correct_witness :
    (cleanupStaleConsumers
        [⟨1, 5, "cl1", .connected, some 939, none, []⟩,
         ⟨2, 5, "cl2", .connected, some 941, none, []⟩] 1000).get? 0 =
      some ⟨1, 5, "cl1", .closed, some 939, some 1000,
        [("cleanup_reason", .str "heartbeat_timeout"),
         ("minutes_stale", .num 1)]⟩ ∧
    (cleanupStaleConsumers
        [⟨1, 5, "cl1", .connected, some 939, none, []⟩,
         ⟨2, 5, "cl2", .connected, some 941, none, []⟩] 1000).get? 1 =
      some ⟨2, 5, "cl2", .connected, some 941, none, []⟩ := by
  constructor
  · have h := (cleanup_stale_consumers_correct
      [⟨1, 5, "cl1", .connected, some 939, none, []⟩,
       ⟨2, 5, "cl2", .connected, some 941, none, []⟩] 1000 0
      ⟨1, 5, "cl1", .connected, some 939, none, []⟩ (by decide)).1
      (by decide) 939 (by decide) (by decide)
    exact h.1
  · exact (cleanup_stale_consumers_correct
      [⟨1, 5, "cl1", .connected, some 939, none, []⟩,
       ⟨2, 5, "cl2", .connected, some 941, none, []⟩] 1000 1
      ⟨2, 5, "cl2", .connected, some 941, none, []⟩ (by decide)).2
      941 (by decide) (by decide)

/-- C10: `record_heartbeat` does not inspect the consumer's state — for a
consumer in the terminal CLOSED state it succeeds, sets `last_seen_at` to
the current time and returns status `"active"`, while every row's state
(including the CLOSED one) is unchanged. -/
theorem record_heartbeat_ignores_closed_state
    (consumers : List ConsumerRow) (cid : Nat) (now : Int) (c : ConsumerRow)
    (hfind : consumers.find? (fun x => x.id == cid) = some c)
    (_hclosed : c.state = .closed) :
    (recordHeartbeat consumers cid now).2 =
      .ok { consumer_id := cid, last_seen_at := now, status := "active" } ∧
    (recordHeartbeat consumers cid now).1.map (fun x => x.state) =
      consumers.map (fun x => x.state) ∧
    (∀ i c₀, consumers.get? i = some c₀ → c₀.id = cid →
      (recordHeartbeat consumers cid now).1.get? i =
        some { c₀ with last_seen_at := some now }) := by
  refine ⟨by simp [recordHeartbeat, hfind], ?_, ?_⟩
  · simp only [recordHeartbeat, hfind, List.map_map]
    apply List.map_congr_left
    intro x _
    by_cases hx : x.id = cid <;> simp [hx]
  · intro i c₀ hget hid
    simp only [recordHeartbeat, hfind]
    simp only [List.get?_map, hget, Option.map_some']
    simp [hid]

/-- Witness for C10: a CLOSED consumer receives a heartbeat; the call
succeeds with status `"active"`, updates `last_seen_at`, and the state
stays CLOSED. -/
theorem record_heartbeat_ignores_closed_state_witness :
    (recordHeartbeat [⟨7, 5, "cl", .closed, some 10, some 20, []⟩] 7 100).2 =
      .ok { consumer_id := 7, last_seen_at := 100, status := "active" } ∧
    (recordHeartbeat [⟨7, 5, "cl", .closed, some 10, some 20, []⟩] 7 100).1.get? 0 =
      some ⟨7, 5, "cl", .closed, some 100, some 20, []⟩ := by
  have h := record_heartbeat_ignores_closed_state
    [⟨7, 5, "cl", .closed, some 10, some 20, []⟩] 7 100
    ⟨7, 5, "cl", .closed, some 10, some 20, []⟩ (by decide) (by decide)
  exact ⟨h.1, h.2.2 0 ⟨7, 5, "cl", .closed, some 10, some 20, []⟩ (by decide) (by decide)⟩

/-- C3 counterexample: a stream in READY state that already owns an ACTIVE
producer row.  `create_producer` succeeds without closing the existing
producer, so afterwards TWO producer rows of the stream are ACTIVE: the
claimed close-before-create enforcement does not exist and the
one-ACTIVE-per-stream invariant is violated at this observation point. -/
theorem create_producer_leaves_existing_active :
    (createProducer
        { streams := [⟨1, 1, "s1", some .ready, some 7, some 9⟩],
          devices := [],
          producers := [⟨0, 1, "P0", "T0", "R0", 7, .active⟩],
          audit := [] } 1
        ⟨some "R1", some "T1", some "P1", 5⟩).2.isOk = true ∧
    activeProducerCount
      (createProducer
        { streams := [⟨1, 1, "s1", some .ready, some 7, some 9⟩],
          devices := [],
          producers := [⟨0, 1, "P0", "T0", "R0", 7, .active⟩],
          audit := [] } 1
        ⟨some "R1", some "T1", some "P1", 5⟩).1 1 = 2 := by
  decide

theorem findStream_id (db : DB) (sid : Nat) (s : StreamRow)
    (h : db.findStream sid = some s) : s.id = sid := by
  unfold DB.findStream at h
  have h2 := List.find?_some h
  simpa using h2

theorem find?_map_update (l : List StreamRow) (sid : Nat) (s : StreamRow)
    (f : StreamRow → StreamRow) (hf : ∀ t, (f t).id = t.id)
    (h : l.find? (fun t => t.id == sid) = some s) :
    (l.map (fun t => if t.id == sid then f t else t)).find?
      (fun t => t.id == sid) = some (f s) := by
  induction l with
  | nil => simp at h
  | cons a rest ih =>
    by_cases ha : (a.id == sid) = true
    · simp only [List.find?_cons, ha, cond_true] at h
      injection h with h1
      subst h1
      have hhead : (if (a.id == sid) = true then f a else a) = f a := if_pos ha
      have hpred : ((f a).id == sid) = true := by
        rw [hf a]
        exact ha
      rw [List.map_cons, hhead, List.find?_cons, hpred]
    · have ha' : (a.id == sid) = false := by simpa using ha
      simp only [List.find?_cons, ha', cond_false] at h
      have hhead : (if (a.id == sid) = true then f a else a) = a :=
        if_neg (by simp [ha'])
      rw [List.map_cons, hhead, List.find?_cons, ha']
      exact ih h

theorem svcTransition_of_valid (db : DB) (s : StreamRow) (ts : StreamState)
    (r : Option String) (md : Metadata)
    (hvalid : isValidTransition s.state ts = true) :
    svcTransition db s ts r md =
      ({ db with
          streams := db.streams.map (fun t =>
            if t.id == s.id then { t with state := some ts } else t),
          audit := db.audit ++
            [{ stream_id := s.id, from_state := s.state, to_state := ts,
               reason := r, transition_metadata := md }] }, none) := by
  unfold svcTransition machineTransition
  simp [hvalid]

theorem mem_reg_filter_ne (reg : List (Nat × ProcInfo)) (sid : Nat) :
    ∀ p ∈ reg.filter (fun p => p.1 != sid), p.1 ≠ sid := by
  intro p hp
  have h := (List.mem_filter.mp hp).2
  simpa using h

theorem svcTransition_preserves_producers
    (db : DB) (s : StreamRow) (ts : StreamState) (r : Option String)
    (md : Metadata) (db2 : DB) (e : Option Err)
    (h : svcTransition db s ts r md = (db2, e)) :
    db2.producers = db.producers := by
  unfold svcTransition at h
  split at h <;>
  · injection h with h1 h2
    subst h1
    rfl

/-- C3 amended: `create_producer` appends exactly one new ACTIVE producer
row for the stream and leaves every existing producer row unchanged (it
closes nothing); consequently the at-most-one-ACTIVE invariant holds after
the call only when the stream had no ACTIVE producer before it. -/
theorem create_producer_appends_single_active
    (db : DB) (sid : Nat) (fab : FabricResp) (db' : DB)
    (res : ProducerResult)
    (h : createProducer db sid fab = (db', .ok res)) :
    (∃ r, db'.producers = db.producers ++ [r] ∧
      r.state = .active ∧ r.stream_id = sid) ∧
    (activeProducerCount db sid = 0 → activeProducerCount db' sid = 1) := by
  unfold createProducer at h
  split at h
  · exact absurd (congrArg Prod.snd h) (by simp)
  · split at h
    · exact absurd (congrArg Prod.snd h) (by simp)
    · split at h
      · exact absurd (congrArg Prod.snd h) (by simp)
      · exact absurd (congrArg Prod.snd h) (by simp)
      · split at h
        · exact absurd (congrArg Prod.snd h) (by simp)
        · split at h
          · unfold createProducerFailure at h
            split at h <;> exact absurd (congrArg Prod.snd h) (by simp)
          · split at h
            · unfold createProducerFailure at h
              split at h <;> exact absurd (congrArg Prod.snd h) (by simp)
            · split at h
              · unfold createProducerFailure at h
                split at h <;> exact absurd (congrArg Prod.snd h) (by simp)
              · dsimp only [] at h
                split at h
                · rename_i db2 hsvc
                  injection h with hdb hres
                  subst hdb
                  have hprod := svcTransition_preserves_producers
                    _ _ _ _ _ _ _ hsvc
                  dsimp only [] at hprod
                  constructor
                  · exact ⟨_, hprod, rfl, rfl⟩
                  · intro h0
                    unfold activeProducerCount at h0 ⊢
                    rw [hprod, List.filter_append, List.length_append, h0]
                    simp
                · unfold createProducerFailure at h
                  split at h <;> exact absurd (congrArg Prod.snd h) (by simp)

/-- C6: the end-to-end scenario on the embedded services.  Starting from
the virtual `none` state, `start_ingestion` reaches READY and
`create_producer` then LIVE, and `stop_ingestion` yields LIVE → STOPPED —
but the subsequent `start_ingestion` fails with `InvalidStateTransition`
instead of re-entering at INITIALIZING, because `→ INITIALIZING` is only
valid from the virtual `none` state; indeed a start from every persistable
state (including a fresh stream, whose column default is INITIALIZING)
fails the same way, contradicting the service's own documented
start/stop/restart flow. -/
theorem start_stop_restart_blocked :
    scenStart1.2.2 = .ok ⟨1, 7, 10007, some 42, .ready⟩ ∧
    dbStreamState scenStart1.1.db 1 = some (some .ready) ∧
    scenAfterProducer.2.isOk = true ∧
    dbStreamState scenAfterProducer.1 1 = some (some .live) ∧
    scenAfterStop.2.2.isOk = true ∧
    dbStreamState scenAfterStop.1.db 1 = some (some .stopped) ∧
    scenRestart.2.2 = .error .invalidStateTransition ∧
    (∀ s : StreamState,
      (startIngestion ⟨scenDb (some s), []⟩ 1 scenOracle).2.2 =
        .error .invalidStateTransition) := by
  decide

/-- C7 counterexample: `stop_ingestion` on an already-STOPPED stream does
not succeed — the STOPPED → STOPPED transition is invalid, the `ValueError`
is caught and re-raised as `RuntimeError`, and the registry entry is left
in place.  `stop` is therefore not idempotent. -/
theorem stop_ingestion_on_stopped_raises :
    (stopIngestion ⟨scenDb (some .stopped), [(1, scenProc)]⟩ 1).2.2 =
      .error .runtimeError ∧
    (stopIngestion ⟨scenDb (some .stopped), [(1, scenProc)]⟩ 1).1.reg =
      [(1, scenProc)] := by
  decide

/-- C7 amended: `stop_ingestion` succeeds exactly on the streams from whose
state STOPPED is reachable in the adjacency table (LIVE and ERROR); in
every successful case it stops the supervised pipeline process, transitions
the stream to STOPPED, and removes the stream's entry from the
active-process registry.  Called on an already-STOPPED stream it raises
`RuntimeError` instead of being an idempotent no-op. -/
theorem stop_ingestion_success
    (st : IngestState) (sid : Nat) (stream : StreamRow)
    (hfind : st.db.findStream sid = some stream)
    (hvalid : isValidTransition stream.state .stopped = true) :
    (stopIngestion st sid).2.2 =
      .ok { stream_id := sid, state := .stopped } ∧
    dbStreamState (stopIngestion st sid).1.db sid = some (some .stopped) ∧
    (∀ p ∈ (stopIngestion st sid).1.reg, p.1 ≠ sid) ∧
    Event.stopPipeline (toString sid) ∈ (stopIngestion st sid).2.1 := by
  have hsid := findStream_id _ _ _ hfind
  have heq := svcTransition_of_valid st.db stream .stopped
    (some "Stream ingestion stopped") [] hvalid
  unfold stopIngestion
  rw [hfind]
  dsimp only []
  rw [heq]
  dsimp only []
  refine ⟨rfl, ?_, ?_, by simp⟩
  · unfold dbStreamState DB.findStream
    have hfind' : st.db.streams.find? (fun t => t.id == stream.id) =
        some stream := by
      unfold DB.findStream at hfind
      rw [hsid]
      exact hfind
    have h2 := find?_map_update st.db.streams stream.id stream
      (fun t => { t with state := some StreamState.stopped })
      (fun t => rfl) hfind'
    rw [← hsid]
    simp only [h2]
    rfl
  · exact mem_reg_filter_ne st.reg sid

/-- Witness for C7's amended theorem: stopping a LIVE stream with a live
registry entry succeeds, reaches STOPPED, and clears the registry. -/
theorem stop_ingestion_success_witness :
    (stopIngestion ⟨scenDb (some .live), [(1, scenProc)]⟩ 1).2.2 =
      .ok { stream_id := 1, state := .stopped } ∧
    dbStreamState (stopIngestion ⟨scenDb (some .live), [(1, scenProc)]⟩ 1).1.db
      1 = some (some .stopped) ∧
    (∀ p ∈ (stopIngestion ⟨scenDb (some .live), [(1, scenProc)]⟩ 1).1.reg,
      p.1 ≠ 1) ∧
    Event.stopPipeline (toString 1) ∈
      (stopIngestion ⟨scenDb (some .live), [(1, scenProc)]⟩ 1).2.1 :=
  stop_ingestion_success ⟨scenDb (some .live), [(1, scenProc)]⟩ 1
    ⟨1, 2, "S1", some .live, none, none⟩ (by decide) (by decide)

theorem findStream_svcTransition_self (db : DB) (stream : StreamRow)
    (sid : Nat) (ts : StreamState) (r : Option String) (md : Metadata)
    (hfind : db.findStream sid = some stream)
    (hvalid : isValidTransition stream.state ts = true) :
    (svcTransition db stream ts r md).1.findStream sid =
      some { stream with state := some ts } := by
  have hsid := findStream_id _ _ _ hfind
  rw [svcTransition_of_valid db stream ts r md hvalid]
  unfold DB.findStream
  have hfind' : db.streams.find? (fun t => t.id == stream.id) = some stream := by
    unfold DB.findStream at hfind
    rw [hsid]
    exact hfind
  have h2 := find?_map_update db.streams stream.id stream
    (fun t => { t with state := some ts }) (fun t => rfl) hfind'
  rw [← hsid]
  exact h2

theorem findStream_updateStream (db : DB) (sid : Nat) (s : StreamRow)
    (f : StreamRow → StreamRow) (hf : ∀ t, (f t).id = t.id)
    (hfind : db.findStream sid = some s) :
    (db.updateStream sid f).findStream sid = some (f s) := by
  unfold DB.updateStream DB.findStream
  unfold DB.findStream at hfind
  exact find?_map_update db.streams sid s f hf hfind

theorem ingestionFailure_observations
    (st : IngestState) (stream : StreamRow) (sid : Nat) (msg : String)
    (evs : List Event)
    (hfind : st.db.findStream sid = some stream)
    (hvalid : isValidTransition stream.state .error = true) :
    (ingestionFailure st stream sid true msg evs).2.2 =
      .error .runtimeError ∧
    dbStreamState (ingestionFailure st stream sid true msg evs).1.db sid =
      some (some .error) ∧
    (ingestionFailure st stream sid true msg evs).1.db.audit =
      st.db.audit ++
        [{ stream_id := sid, from_state := stream.state,
           to_state := .error,
           reason := some ("Ingestion failed: " ++ msg),
           transition_metadata := [("error", .str msg)] }] ∧
    (∀ p ∈ (ingestionFailure st stream sid true msg evs).1.reg, p.1 ≠ sid) ∧
    (ingestionFailure st stream sid true msg evs).2.1 = evs := by
  have hsid := findStream_id _ _ _ hfind
  have hstate := findStream_svcTransition_self st.db stream sid .error
    (some ("Ingestion failed: " ++ msg)) [("error", .str msg)] hfind hvalid
  unfold ingestionFailure
  rw [svcTransition_of_valid st.db stream .error
    (some ("Ingestion failed: " ++ msg)) [("error", .str msg)] hvalid]
  rw [svcTransition_of_valid st.db stream .error
    (some ("Ingestion failed: " ++ msg)) [("error", .str msg)] hvalid] at hstate
  dsimp only []
  simp only [Bool.not_true, Bool.false_eq_true, if_false]
  refine ⟨by trivial, ?_, by rw [hsid], mem_reg_filter_ne st.reg sid,
    by trivial⟩
  unfold dbStreamState
  rw [hstate]
  rfl

/-- C9 counterexample: a start in which the SSRC probe succeeds, FFmpeg is
spawned, and the commit after the READY transition fails.  The stream is
transitioned to ERROR, the registry entry is removed and `RuntimeError` is
raised — but the complete effect trace is `[probe, spawn]`: the spawned
process is never killed and nothing is closed, so no rollback of
partially-created resources happens. -/
theorem start_ingestion_failure_no_kill :
    (startIngestion ⟨scenDb none, []⟩ 1 scenOracleCommitFail).2.2 =
      .error .runtimeError ∧
    (startIngestion ⟨scenDb none, []⟩ 1 scenOracleCommitFail).2.1 =
      [.probe "rtsp://cam1", .spawn (some 42) 7] ∧
    dbStreamState
      (startIngestion ⟨scenDb none, []⟩ 1 scenOracleCommitFail).1.db 1 =
      some (some .error) := by
  decide

/-- C9 amended: when any step inside the guarded section of
`start_ingestion` fails (no SSRC detected, FFmpeg raising, or the READY
commit failing) and the error-branch commit succeeds, the stream is
transitioned to ERROR with the captured reason and error metadata appended
to the audit log, the registry entry is removed, and the failure is
re-surfaced as a typed `RuntimeError`; however no event of the call kills a
process or closes a producer/transport — partially-created resources are
not rolled back. -/
theorem start_ingestion_failure_observations
    (st : IngestState) (sid : Nat) (o : IngestOracle)
    (stream : StreamRow) (device : DeviceRow) (url : String)
    (hfind : st.db.findStream sid = some stream)
    (hdev : st.db.findDevice stream.camera_id = some device)
    (hurl : device.rtsp_url = some url) (hne : url ≠ "")
    (hinit : isValidTransition stream.state .initializing = true)
    (hc1 : o.commitInit = true) (hcE : o.commitError = true)
    (hfail : o.ssrcResp = none ∨ o.ssrcResp = some 0 ∨
      o.ffmpegRaises = true ∨ o.commitReady = false) :
    (startIngestion st sid o).2.2 = .error .runtimeError ∧
    dbStreamState (startIngestion st sid o).1.db sid =
      some (some .error) ∧
    (∃ msg fs, (startIngestion st sid o).1.db.audit.getLast? =
      some { stream_id := sid, from_state := fs, to_state := .error,
             reason := some ("Ingestion failed: " ++ msg),
             transition_metadata := [("error", .str msg)] }) ∧
    (∀ p ∈ (startIngestion st sid o).1.reg, p.1 ≠ sid) ∧
    (∀ e ∈ (startIngestion st sid o).2.1, e.isDestructive = false) := by
  have hsid := findStream_id _ _ _ hfind
  have hne' : (url == "") = false := beq_eq_false_iff_ne.mpr hne
  have heqInit := svcTransition_of_valid st.db stream .initializing
    (some "Starting stream ingestion")
    [("camera_name", .str device.name), ("rtsp_url", .str url)] hinit
  have hfindInit := findStream_svcTransition_self st.db stream sid
    .initializing (some "Starting stream ingestion")
    [("camera_name", .str device.name), ("rtsp_url", .str url)] hfind hinit
  rw [heqInit] at hfindInit
  unfold startIngestion
  rw [hfind]
  dsimp only []
  rw [hdev]
  dsimp only []
  rw [hurl]
  dsimp only []
  rw [if_neg (by simp [hne']), heqInit]
  dsimp only []
  rw [hc1]
  simp only [Bool.not_true, Bool.false_eq_true, if_false]
  set db1 : DB :=
    { streams := st.db.streams.map (fun t =>
        if t.id == stream.id then
          { t with state := some StreamState.initializing } else t),
      devices := st.db.devices, producers := st.db.producers,
      audit := st.db.audit ++
        [{ stream_id := stream.id, from_state := stream.state,
           to_state := .initializing,
           reason := some "Starting stream ingestion",
           transition_metadata :=
             [("camera_name", .str device.name),
              ("rtsp_url", .str url)] }] } with hdb1
  have hobs := fun msg evs => ingestionFailure_observations
    ⟨db1, st.reg⟩ { stream with state := some StreamState.initializing }
    sid msg evs hfindInit (by dsimp only []; decide)
  rcases hssrc : o.ssrcResp with _ | ssrc
  · -- probe detected nothing
    dsimp only []
    rw [hcE]
    have h := hobs "Failed to capture SSRC from RTSP stream" [.probe url]
    refine ⟨h.1, h.2.1, ?_, h.2.2.2.1, ?_⟩
    · refine ⟨"Failed to capture SSRC from RTSP stream",
        some StreamState.initializing, ?_⟩
      rw [h.2.2.1]
      simp [List.getLast?_concat]
    · intro e he
      rw [h.2.2.2.2] at he
      rcases (by simpa using he) with rfl
      rfl
  · dsimp only []
    by_cases hz : (ssrc == 0) = true
    · rw [if_pos hz, hcE]
      have h := hobs "Failed to capture SSRC from RTSP stream" [.probe url]
      refine ⟨h.1, h.2.1, ?_, h.2.2.2.1, ?_⟩
      · refine ⟨"Failed to capture SSRC from RTSP stream",
        some StreamState.initializing, ?_⟩
        rw [h.2.2.1]
        simp [List.getLast?_concat]
      · intro e he
        rw [h.2.2.2.2] at he
        rcases (by simpa using he) with rfl
        rfl
    · rw [if_neg (by simp [hz])]
      rcases hffr : o.ffmpegRaises with _ | _
      · -- FFmpeg started; READY transition always valid from INITIALIZING
        simp only [Bool.false_eq_true, if_false]
        have heqReady := svcTransition_of_valid db1
          { stream with state := some StreamState.initializing } .ready
          (some "FFmpeg started, SSRC captured") [("ssrc", .num ssrc)]
          (by dsimp only []; decide)
        rw [heqReady]
        dsimp only []
        rcases hcr : o.commitReady with _ | _
        · -- the READY commit fails: ingestionFailure on the updated session
          simp only [Bool.not_false, if_true]
          have hfindReady := findStream_svcTransition_self db1
            { stream with state := some StreamState.initializing } sid .ready
            (some "FFmpeg started, SSRC captured") [("ssrc", .num ssrc)]
            hfindInit (by dsimp only []; decide)
          rw [heqReady] at hfindReady
          have hfindCodec := findStream_updateStream _ sid
            { stream with state := some StreamState.ready }
            (fun t =>
              { t with
                codec_ssrc := some ssrc,
                codec_rtp_port := some (10000 + ssrc % 50000) })
            (fun t => rfl) hfindReady
          rw [hcE]
          have h := ingestionFailure_observations
            ⟨_, regSet st.reg sid
              { pid := o.ffmpegPid, ssrc := ssrc,
                rtp_port := 10000 + ssrc % 50000,
                camera_id := stream.camera_id, rtsp_url := url }⟩
            { stream with
              state := some StreamState.ready,
              codec_ssrc := some ssrc,
              codec_rtp_port := some (10000 + ssrc % 50000) }
            sid "Database commit failed"
            [.probe url, .spawn o.ffmpegPid ssrc] hfindCodec
            (by dsimp only []; decide)
          dsimp only [] at h
          dsimp only [DB.updateStream]
          refine ⟨h.1, h.2.1, ?_, h.2.2.2.1, ?_⟩
          · refine ⟨"Database commit failed", some StreamState.ready, ?_⟩
            rw [h.2.2.1]
            simp [List.getLast?_concat]
          · intro e he
            rw [h.2.2.2.2] at he
            rcases (by simpa using he) with rfl | rfl <;> rfl
        · -- all steps succeeded: contradicts hfail
          rcases hfail with h | h | h | h
          · have h2 := hssrc.symm.trans h
            simp at h2
          · have h2 := hssrc.symm.trans h
            injection h2 with h3
            exact absurd (by simp [h3] : (ssrc == 0) = true) (by simp [hz])
          · have h2 := hffr.symm.trans h
            simp at h2
          · have h2 := hcr.symm.trans h
            simp at h2
      · -- rtsp_start_stream raised
        simp only [if_true]
        rw [hcE]
        have h := hobs "FFmpeg failed to start" [.probe url]
        refine ⟨h.1, h.2.1, ?_, h.2.2.2.1, ?_⟩
        · refine ⟨"FFmpeg failed to start", some StreamState.initializing, ?_⟩
          rw [h.2.2.1]
          simp [List.getLast?_concat]
        · intro e he
          rw [h.2.2.2.2] at he
          rcases (by simpa using he) with rfl
          rfl

/-- Witness for C9's amended theorem: the commit-failure run satisfies the
hypotheses, reaches ERROR with the audit record appended, clears the
registry, raises `RuntimeError`, and its events kill or close nothing. -/
theorem start_ingestion_failure_observations_witness :
    (startIngestion ⟨scenDb none, []⟩ 1 scenOracleCommitFail).2.2 =
      .error .runtimeError ∧
    dbStreamState
      (startIngestion ⟨scenDb none, []⟩ 1 scenOracleCommitFail).1.db 1 =
      some (some .error) ∧
    (∃ msg fs,
      (startIngestion ⟨scenDb none, []⟩ 1
          scenOracleCommitFail).1.db.audit.getLast? =
        some { stream_id := 1, from_state := fs, to_state := .error,
               reason := some ("Ingestion failed: " ++ msg),
               transition_metadata := [("error", .str msg)] }) ∧
    (∀ p ∈ (startIngestion ⟨scenDb none, []⟩ 1 scenOracleCommitFail).1.reg,
      p.1 ≠ 1) ∧
    (∀ e ∈ (startIngestion ⟨scenDb none, []⟩ 1 scenOracleCommitFail).2.1,
      e.isDestructive = false) :=
  start_ingestion_failure_observations ⟨scenDb none, []⟩ 1
    scenOracleCommitFail ⟨1, 2, "S1", none, none, none⟩
    ⟨2, "cam1", some "rtsp://cam1", true⟩ "rtsp://cam1"
    (by decide) (by decide) (by decide) (by decide) (by decide)
    (by decide) (by decide) (Or.inr (Or.inr (Or.inr rfl)))

/-- Witness for C3's amended theorem: on a stream with no prior ACTIVE
producer, `create_producer` ends with exactly one ACTIVE row. -/
theorem create_producer_appends_single_active_witness :
    (createProducer
        { streams := [⟨1, 1, "s1", some .ready, some 7, some 9⟩],
          devices := [], producers := [], audit := [] } 1
        ⟨some "R1", some "T1", some "P1", 5⟩).2 =
      .ok ⟨5, "P1", "R1", "T1", 7, .active, .live⟩ ∧
    activeProducerCount
      (createProducer
        { streams := [⟨1, 1, "s1", some .ready, some 7, some 9⟩],
          devices := [], producers := [], audit := [] } 1
        ⟨some "R1", some "T1", some "P1", 5⟩).1 1 = 1 := by
  refine ⟨by decide, ?_⟩
  have h := create_producer_appends_single_active
    { streams := [⟨1, 1, "s1", some .ready, some 7, some 9⟩],
      devices := [], producers := [], audit := [] } 1
    ⟨some "R1", some "T1", some "P1", 5⟩
    (createProducer
      { streams := [⟨1, 1, "s1", some .ready, some 7, some 9⟩],
        devices := [], producers := [], audit := [] } 1
      ⟨some "R1", some "T1", some "P1", 5⟩).1
    ⟨5, "P1", "R1", "T1", 7, .active, .live⟩ (by decide)
  exact h.2 (by decide)

/-- C4 counterexample: a duplicate start while the stream runs returns the
same producer descriptor but NOT the same transport descriptor — the
reconnect response reads the transport id from the registry entry, which
records none, so the second call reports `"unknown"` where the first call
returned `"T1"`.  No duplicate producer is created and the world is left
untouched. -/
theorem start_device_stream_second_transport_differs :
    routeRun1.2.2 = .ok ⟨"T1", "P1", false⟩ ∧
    routeRun2.2.2 = .ok ⟨"unknown", "P1", true⟩ ∧
    ("unknown" : String) ≠ "T1" ∧
    routeRun2.1 = routeRun1.1 ∧
    routeRun2.2.1 = [] := by
  decide

/-- C4 amended: while the stream is tracked as active in the registry and
the fabric query succeeds with a nonempty producer list, a second start
returns the existing (last) fabric producer id with reconnect flag set,
creates nothing, emits no events, and leaves the whole world unchanged —
but the transport descriptor of the reconnect response is the constant
`"unknown"`, not the transport id of the first call. -/
theorem start_device_stream_reconnect
    (w : RouteWorld) (did : Nat) (o : RouteOracle) (device : DeviceRow)
    (lastP : String)
    (hdev : w.db.findDevice did = some device)
    (htracked : (w.pipeline.find? (fun p => p.1 == toString did)).isSome =
      true)
    (hquery : o.guardQueryFails = false)
    (hlast : (fabricProducersOf w (toString did)).getLast? = some lastP) :
    startDeviceStream w did o =
      (w, [], .ok { transport_id := "unknown", producer_id := lastP,
                    reconnect := true }) := by
  unfold startDeviceStream
  rw [hdev]
  dsimp only []
  rw [if_pos htracked, hquery]
  simp only [Bool.false_eq_true, if_false]
  rw [hlast]

/-- Witness for C4's amended theorem: the second call of the concrete
scenario hits the reconnect guard and returns the existing producer. -/
theorem start_device_stream_reconnect_witness :
    startDeviceStream routeRun1.1 3 routeOracle0 =
      (routeRun1.1, [],
        .ok { transport_id := "unknown", producer_id := "P1",
              reconnect := true }) :=
  start_device_stream_reconnect routeRun1.1 3 routeOracle0
    ⟨3, "cam1", some "rtsp://cam1", true⟩ "P1"
    (by decide) (by decide) (by decide) (by decide)

/-- C5 counterexample: a successful `start_ingestion` execution on a
database containing no producer at all: the forwarding process is spawned
(event `spawn`), yet the complete effect trace contains no producer or
transport creation whatsoever and the producers table is still empty
afterwards — the process starts sending packets before any producer
declaring the captured synchronization source exists (producer creation
only happens in a later `create_producer` call). -/
theorem start_ingestion_spawn_without_producer :
    scenStart1.2.2.isOk = true ∧
    scenStart1.2.1 = [.probe "rtsp://cam1", .spawn (some 42) 7] ∧
    scenStart1.1.db.producers = [] := by
  decide

theorem spawn_not_mem_killOrphan_map (pid : Option Nat) (s : Nat)
    (l : List Nat) : Event.spawn pid s ∉ l.map Event.killOrphan := by
  intro hm
  rcases List.mem_map.mp hm with ⟨x, _, hx⟩
  cases hx

theorem spawn_not_mem_close_map (pid : Option Nat) (s : Nat)
    (l : List String) : Event.spawn pid s ∉ l.map Event.fabricCloseProducer := by
  intro hm
  rcases List.mem_map.mp hm with ⟨x, _, hx⟩
  cases hx

theorem routeFullStart_spawn_shape
    (w : RouteWorld) (device : DeviceRow) (did : Nat) (o : RouteOracle)
    (evs0 : List Event) (h0 : ∀ pid s, Event.spawn pid s ∉ evs0)
    (w' : RouteWorld) (evs : List Event)
    (res : Except Err RouteStartResult)
    (h : routeFullStart w device did o evs0 = (w', evs, res))
    (pid : Option Nat) (s : Nat) (hmem : Event.spawn pid s ∈ evs) :
    ∃ pre, evs =
        pre ++ [.fabricCreateProducer o.newProducerId s, .spawn pid s] ∧
      ∃ tid prt, Event.createTransport tid prt ∈ pre := by
  unfold routeFullStart at h
  dsimp only [] at h
  have h1 : ∀ pid' s',
      Event.spawn pid' s' ∉ evs0 ++ o.orphanPids.map Event.killOrphan := by
    intro pid' s' hm
    rcases List.mem_append.mp hm with h' | h'
    · exact h0 pid' s' h'
    · exact spawn_not_mem_killOrphan_map pid' s' o.orphanPids h'
  split at h
  · -- transport creation failed
    injection h with hw h'
    injection h' with hevs hres
    subst hevs
    exact absurd hmem (h1 pid s)
  · rename_i tp htp
    have h2 : ∀ pid' s', Event.spawn pid' s' ∉
        (evs0 ++ o.orphanPids.map Event.killOrphan) ++
          [Event.createTransport tp.1 tp.2] := by
      intro pid' s' hm
      rcases List.mem_append.mp hm with h' | h'
      · exact h1 pid' s' h'
      · exact Event.noConfusion (List.mem_singleton.mp h')
    split at h
    · -- no SSRC detected
      injection h with hw h'
      injection h' with hevs hres
      subst hevs
      rcases List.mem_append.mp hmem with h' | h'
      · exact absurd h' (h2 pid s)
      · exact Event.noConfusion (List.mem_singleton.mp h')
    · rename_i ssrc hssrcR
      have h3 : ∀ pid' s', Event.spawn pid' s' ∉
          ((evs0 ++ o.orphanPids.map Event.killOrphan) ++
            [Event.createTransport tp.1 tp.2]) ++
            [Event.probe (device.rtsp_url.getD "")] := by
        intro pid' s' hm
        rcases List.mem_append.mp hm with h' | h'
        · exact h2 pid' s' h'
        · exact Event.noConfusion (List.mem_singleton.mp h')
      split at h
      · -- falsy SSRC
        injection h with hw h'
        injection h' with hevs hres
        subst hevs
        exact absurd hmem (h3 pid s)
      · have h4 : ∀ pid' s', Event.spawn pid' s' ∉
            (((evs0 ++ o.orphanPids.map Event.killOrphan) ++
              [Event.createTransport tp.1 tp.2]) ++
              [Event.probe (device.rtsp_url.getD "")]) ++
              (if o.cleanupScanFails then []
               else fabricProducersOf w (toString did)).map
                Event.fabricCloseProducer := by
          intro pid' s' hm
          rcases List.mem_append.mp hm with h' | h'
          · exact h3 pid' s' h'
          · exact spawn_not_mem_close_map pid' s' _ h'
        split at h
        · -- producer creation failed
          injection h with hw h'
          injection h' with hevs hres
          subst hevs
          exact absurd hmem (h4 pid s)
        · split at h
          · -- full success: trace ends [create producer, spawn]
            injection h with hw h'
            injection h' with hevs hres
            subst hevs
            rcases List.mem_append.mp hmem with h' | h'
            · rcases List.mem_append.mp h' with h'' | h''
              · exact absurd h'' (h4 pid s)
              · exact Event.noConfusion (List.mem_singleton.mp h'')
            · have h'' := List.mem_singleton.mp h'
              injection h'' with hpid hs
              subst hpid
              subst hs
              refine ⟨evs0 ++ o.orphanPids.map Event.killOrphan ++
                  [Event.createTransport tp.1 tp.2] ++
                  [Event.probe (device.rtsp_url.getD "")] ++
                  (if o.cleanupScanFails then []
                   else fabricProducersOf w (toString did)).map
                    Event.fabricCloseProducer,
                by simp, tp.1, tp.2, by simp [List.mem_append]⟩
          · -- FFmpeg reported an error
            injection h with hw h'
            injection h' with hevs hres
            subst hevs
            rcases List.mem_append.mp hmem with h' | h'
            · exact absurd h' (h4 pid s)
            · exact Event.noConfusion (List.mem_singleton.mp h')

/-- C5 amended: in the route-level start orchestration
(`start_device_stream`), in EVERY call whose event trace spawns the
forwarding process, the trace ends with the fabric producer creation using
the captured synchronization source immediately followed by the spawn, and
the fabric transport was created before both — the process never starts
sending packets before a producer declaring that synchronization source
exists.  (In `StreamIngestionService.start_ingestion` this ordering does
not hold: the process is spawned before any producer exists.) -/
theorem start_device_stream_producer_before_spawn
    (w : RouteWorld) (did : Nat) (o : RouteOracle)
    (w' : RouteWorld) (evs : List Event)
    (res : Except Err RouteStartResult)
    (h : startDeviceStream w did o = (w', evs, res))
    (pid : Option Nat) (s : Nat) (hmem : Event.spawn pid s ∈ evs) :
    ∃ pre, evs =
        pre ++ [.fabricCreateProducer o.newProducerId s, .spawn pid s] ∧
      ∃ tid prt, Event.createTransport tid prt ∈ pre := by
  unfold startDeviceStream at h
  dsimp only [] at h
  split at h
  · -- device not found: empty trace
    injection h with hw h'
    injection h' with hevs hres
    subst hevs
    simp at hmem
  · split at h
    · split at h
      · -- tracked, guard query raised: stop then full restart
        exact routeFullStart_spawn_shape _ _ _ _ _
          (by intro pid' s' hm
              exact Event.noConfusion (List.mem_singleton.mp hm))
          _ _ _ h pid s hmem
      · split at h
        · -- reconnect hit: empty trace
          injection h with hw h'
          injection h' with hevs hres
          subst hevs
          simp at hmem
        · -- tracked but no producers: full restart
          exact routeFullStart_spawn_shape _ _ _ _ _
            (by intro pid' s' hm; simp at hm) _ _ _ h pid s hmem
    · -- not tracked: full restart
      exact routeFullStart_spawn_shape _ _ _ _ _
        (by intro pid' s' hm; simp at hm) _ _ _ h pid s hmem

/-- Witness for C5's amended theorem: the concrete successful route start
has the trace `[createTransport, probe, createProducer, spawn]`, whose
spawn is immediately preceded by the producer creation with the same
synchronization source, with the transport created earlier. -/
theorem start_device_stream_producer_before_spawn_witness :
    ∃ pre, routeRun1.2.1 =
        pre ++ [Event.fabricCreateProducer "P1" 7,
                Event.spawn (some 42) 7] ∧
      ∃ tid prt, Event.createTransport tid prt ∈ pre :=
  start_device_stream_producer_before_spawn routeWorld0 3 routeOracle0
    routeRun1.1 routeRun1.2.1 routeRun1.2.2 rfl (some 42) 7 (by decide)

end VasMs
